import Mathlib

/-!
Shallow embedding of src/libs/glm-binding/allocator.hpp: the two STL-style
allocator adapters LuaCrtAllocator and InternalLuaCrtAllocator over the
single lua_Alloc reallocation callback.

Modelling conventions:
- a C pointer is an Option Nat: none is the null pointer, some a an address;
- sizes (std::size_t) are Nat; overflow matters only through the explicit
  guard n <= SIZE_MAX / sizeof(T) in allocate, so SIZE_MAX is a parameter
  sizeMax of the operations;
- a C++ element type T enters the adapters only through sizeof(T), so it is
  modelled by a structure CppType carrying that size;
- each operation returns, besides its C++ return value or the std::bad_alloc
  exception it throws, the ordered list of invocations it made of the host
  callback and the state of the adapter object after the call (the bodies of
  allocate/deallocate/realloc assign no member field, which the embedding
  renders as an unchanged post state).
-/

/-- Pointer model: none is the C++ null pointer, some a the address a. -/
abbrev Ptr : Type := Option Nat

/-- Model of lua_Alloc: a host callback (ud, block, osize, nsize) -> block. -/
abbrev HostFn : Type := Ptr → Ptr → Nat → Nat → Ptr

/-- Record of one invocation of the host callback, with the exact arguments
passed: user data, block pointer, old size, new size. -/
structure CallRecord where
  ud : Ptr
  block : Ptr
  osize : Nat
  nsize : Nat
deriving DecidableEq

/-- Model of the C++ exception std::bad_alloc thrown by the adapters. -/
inductive CppExc : Type where
  | bad_alloc
deriving DecidableEq

/-- Outcome of one adapter operation: the value returned or the exception
raised, the invocations of the host callback made (in order), and the state
of the adapter object after the call. -/
structure Outcome (α σ : Type) where
  result : Except CppExc α
  trace : List CallRecord
  post : σ

/-- Observer: the operation raised (threw) an exception. -/
def Outcome.raised {α σ : Type} (o : Outcome α σ) : Bool :=
  match o.result with
  | Except.error _ => true
  | Except.ok _ => false

/-- Model of global_State from lstate.h, restricted to the fields the binding
reads: the registered allocation function frealloc and its user data ud. -/
structure global_State where
  frealloc : HostFn
  ud : Ptr

/-- Address of a global_State record. -/
abbrev GAddr : Type := Nat

/-- Live heap of global_State records; the direct adapter stores only an
address into it and reads the record on every operation. -/
abbrev GStore : Type := GAddr → global_State

/-- Model of lua_State: it carries the address of its global_State (the l_G
field read by the G(L) macro). -/
structure lua_State where
  l_G : GAddr

/-- Model of lua_getallocf(L, &ud): returns the registered allocation
function, and the user data through the out parameter (second component). -/
def lua_getallocf (σ : GStore) (L : lua_State) : HostFn × Ptr :=
  ((σ L.l_G).frealloc, (σ L.l_G).ud)

/-- Element type of a template instantiation, abstracted to sizeof(T). -/
structure CppType where
  size : Nat

/-- LuaCrtAllocator of T: the caching adapter, holding a cached copy of the
allocation function (nullable) and of the user data pointer. -/
structure LuaCrtAllocator (T : CppType) where
  l_alloc : Option HostFn
  l_ud : Ptr

/-- InternalLuaCrtAllocator of T: the direct adapter, holding only the
(nullable) address of the live global_State record. -/
structure InternalLuaCrtAllocator (T : CppType) where
  _G : Option GAddr

variable {T U : CppType}

/-- Default constructor LuaCrtAllocator(): both cached fields null. -/
def LuaCrtAllocator.init (T : CppType) : LuaCrtAllocator T :=
  ⟨none, none⟩

/-- Constructor LuaCrtAllocator(lua_State *L): caches the pair obtained from
lua_getallocf at this instant. -/
def LuaCrtAllocator.ofState (T : CppType) (σ : GStore) (L : lua_State) :
    LuaCrtAllocator T :=
  ⟨some (lua_getallocf σ L).1, (lua_getallocf σ L).2⟩

/-- Rebind constructor LuaCrtAllocator(const LuaCrtAllocator of U): copies
the cached pair verbatim across element types. -/
def LuaCrtAllocator.rebind (o : LuaCrtAllocator U) : LuaCrtAllocator T :=
  ⟨o.l_alloc, o.l_ud⟩

/-- Validate(L): re-reads the pair from lua_getallocf, overwrites both cached
fields and returns *this; modelled as returning the overwritten state. -/
def LuaCrtAllocator.Validate (_a : LuaCrtAllocator T) (σ : GStore)
    (L : lua_State) : LuaCrtAllocator T :=
  ⟨some (lua_getallocf σ L).1, (lua_getallocf σ L).2⟩

/-- LuaCrtAllocator::realloc(block, osize, nsize): throws bad_alloc when the
cached callback is null, otherwise performs exactly one callback invocation
and returns its result. No member field is assigned. -/
def LuaCrtAllocator.realloc (a : LuaCrtAllocator T) (block : Ptr)
    (osize nsize : Nat) : Outcome Ptr (LuaCrtAllocator T) :=
  match a.l_alloc with
  | none => ⟨Except.error CppExc.bad_alloc, [], a⟩
  | some f =>
      ⟨Except.ok (f a.l_ud block osize nsize),
        [⟨a.l_ud, block, osize, nsize⟩], a⟩

/-- LuaCrtAllocator::allocate(n): guard n <= SIZE_MAX / sizeof(T), then
realloc(nullptr, 0, n * sizeof(T)); a null result, a failed guard or an
exception from realloc (caught by the catch-all) all end in throw bad_alloc. -/
def LuaCrtAllocator.allocate (sizeMax : Nat) (a : LuaCrtAllocator T)
    (n : Nat) : Outcome Nat (LuaCrtAllocator T) :=
  if n ≤ sizeMax / T.size then
    match a.realloc none 0 (n * T.size) with
    | ⟨Except.ok (some p), tr, a1⟩ => ⟨Except.ok p, tr, a1⟩
    | ⟨Except.ok none, tr, a1⟩ => ⟨Except.error CppExc.bad_alloc, tr, a1⟩
    | ⟨Except.error _, tr, a1⟩ => ⟨Except.error CppExc.bad_alloc, tr, a1⟩
  else
    ⟨Except.error CppExc.bad_alloc, [], a⟩

/-- LuaCrtAllocator::deallocate(p, n): realloc(p, n, 0) with the return value
ignored. Note the source passes the element count n, not n * sizeof(T), as
the old size. An error outcome models the bad_alloc thrown by realloc, which
escapes this noexcept member and terminates the program. -/
def LuaCrtAllocator.deallocate (a : LuaCrtAllocator T) (p : Ptr) (n : Nat) :
    Outcome Unit (LuaCrtAllocator T) :=
  match a.realloc p n 0 with
  | ⟨Except.ok _, tr, a1⟩ => ⟨Except.ok (), tr, a1⟩
  | ⟨Except.error e, tr, a1⟩ => ⟨Except.error e, tr, a1⟩

/-- Free operator== over LuaCrtAllocator of T and of U: constantly true. -/
def LuaCrtAllocator.opEq (_a : LuaCrtAllocator T) (_b : LuaCrtAllocator U) :
    Bool :=
  true

/-- Free operator!= over LuaCrtAllocator of T and of U: constantly false. -/
def LuaCrtAllocator.opNe (_a : LuaCrtAllocator T) (_b : LuaCrtAllocator U) :
    Bool :=
  false

/-- Default constructor InternalLuaCrtAllocator(): null record address. -/
def InternalLuaCrtAllocator.init (T : CppType) : InternalLuaCrtAllocator T :=
  ⟨none⟩

/-- Constructor InternalLuaCrtAllocator(global_State *G). -/
def InternalLuaCrtAllocator.ofG (T : CppType) (g : GAddr) :
    InternalLuaCrtAllocator T :=
  ⟨some g⟩

/-- Constructor InternalLuaCrtAllocator(lua_State *L): stores G(L), the
address of the state's global_State record, not its contents. -/
def InternalLuaCrtAllocator.ofState (T : CppType) (L : lua_State) :
    InternalLuaCrtAllocator T :=
  ⟨some L.l_G⟩

/-- Rebind constructor across element types: copies the record address. -/
def InternalLuaCrtAllocator.rebind (o : InternalLuaCrtAllocator U) :
    InternalLuaCrtAllocator T :=
  ⟨o._G⟩

/-- Access(): returns *this unchanged. -/
def InternalLuaCrtAllocator.Access (a : InternalLuaCrtAllocator T) :
    InternalLuaCrtAllocator T :=
  a

/-- InternalLuaCrtAllocator::realloc: throws bad_alloc when the record
address is null, otherwise reads frealloc and ud from the live record and
performs exactly one callback invocation. -/
def InternalLuaCrtAllocator.realloc (σ : GStore)
    (a : InternalLuaCrtAllocator T) (block : Ptr) (osize nsize : Nat) :
    Outcome Ptr (InternalLuaCrtAllocator T) :=
  match a._G with
  | none => ⟨Except.error CppExc.bad_alloc, [], a⟩
  | some g =>
      ⟨Except.ok ((σ g).frealloc (σ g).ud block osize nsize),
        [⟨(σ g).ud, block, osize, nsize⟩], a⟩

/-- InternalLuaCrtAllocator::allocate(n): same body as the caching variant,
with realloc reading the live record. -/
def InternalLuaCrtAllocator.allocate (σ : GStore)
    (a : InternalLuaCrtAllocator T) (sizeMax n : Nat) :
    Outcome Nat (InternalLuaCrtAllocator T) :=
  if n ≤ sizeMax / T.size then
    match a.realloc σ none 0 (n * T.size) with
    | ⟨Except.ok (some p), tr, a1⟩ => ⟨Except.ok p, tr, a1⟩
    | ⟨Except.ok none, tr, a1⟩ => ⟨Except.error CppExc.bad_alloc, tr, a1⟩
    | ⟨Except.error _, tr, a1⟩ => ⟨Except.error CppExc.bad_alloc, tr, a1⟩
  else
    ⟨Except.error CppExc.bad_alloc, [], a⟩

/-- InternalLuaCrtAllocator::deallocate(p, n): realloc(p, n, 0), return value
ignored; the source again passes the element count n as the old size. -/
def InternalLuaCrtAllocator.deallocate (σ : GStore)
    (a : InternalLuaCrtAllocator T) (p : Ptr) (n : Nat) :
    Outcome Unit (InternalLuaCrtAllocator T) :=
  match a.realloc σ p n 0 with
  | ⟨Except.ok _, tr, a1⟩ => ⟨Except.ok (), tr, a1⟩
  | ⟨Except.error e, tr, a1⟩ => ⟨Except.error e, tr, a1⟩

/-- Free operator== over InternalLuaCrtAllocator: constantly true. -/
def InternalLuaCrtAllocator.opEq (_a : InternalLuaCrtAllocator T)
    (_b : InternalLuaCrtAllocator U) : Bool :=
  true

/-- Free operator!= over InternalLuaCrtAllocator: constantly false. -/
def InternalLuaCrtAllocator.opNe (_a : InternalLuaCrtAllocator T)
    (_b : InternalLuaCrtAllocator U) : Bool :=
  false

/-! Concrete instances used by witnesses and counterexamples. -/

/-- Element type of size 4 bytes. -/
def T4 : CppType :=
  ⟨4⟩

/-- Host callback resembling realloc over malloc: null exactly on zero-size
requests, otherwise a fixed fresh address. -/
def hostConst : HostFn :=
  fun _ _ _ nsize => if nsize = 0 then none else some 1000

/-- Host callback that always fails (returns null). -/
def hostNull : HostFn :=
  fun _ _ _ _ => none

/-- Host callback that always returns address 11. -/
def hostA : HostFn :=
  fun _ _ _ _ => some 11

/-- Host callback that always returns address 22. -/
def hostB : HostFn :=
  fun _ _ _ _ => some 22

/-- Caching adapter with a resolved realloc-like callback and ud 7. -/
def aRes : LuaCrtAllocator T4 :=
  ⟨some hostConst, some 7⟩

/-- Caching adapter in the default (unresolved) state. -/
def aNone : LuaCrtAllocator T4 :=
  ⟨none, none⟩

/-- Caching adapter whose resolved callback always returns null. -/
def aNull : LuaCrtAllocator T4 :=
  ⟨some hostNull, some 7⟩

/-- Caching adapter whose resolved callback always succeeds. -/
def aA : LuaCrtAllocator T4 :=
  ⟨some hostA, some 3⟩

/-- Store whose every record carries hostA with ud 1. -/
def gsA : GStore :=
  fun _ => ⟨hostA, some 1⟩

/-- Store whose every record carries hostB with ud 2. -/
def gsB : GStore :=
  fun _ => ⟨hostB, some 2⟩

/-- Store distinguishing address 0 (hostA, ud 1) from others (hostB, ud 2). -/
def gsAB : GStore :=
  fun g => if g = 0 then ⟨hostA, some 1⟩ else ⟨hostB, some 2⟩

/-- Direct adapter referencing record address 0. -/
def bRes : InternalLuaCrtAllocator T4 :=
  ⟨some 0⟩

/-- Direct adapter with a null record address. -/
def bNone : InternalLuaCrtAllocator T4 :=
  ⟨none⟩

/-- Store whose every record carries hostConst with ud 5. -/
def gsConst : GStore :=
  fun _ => ⟨hostConst, some 5⟩

/-- Direct adapter referencing record address 0, used with gsConst. -/
def bConst : InternalLuaCrtAllocator T4 :=
  ⟨some 0⟩

/-! Characterization lemmas: each operation computed on the shape of the
adapter state (cached callback present or absent, guard passing or failing,
callback succeeding or returning null). -/

theorem crtRealloc_none (a : LuaCrtAllocator T) (block : Ptr)
    (osize nsize : Nat) (h : a.l_alloc = none) :
    a.realloc block osize nsize = ⟨Except.error CppExc.bad_alloc, [], a⟩ := by
  simp only [LuaCrtAllocator.realloc, h]

theorem crtRealloc_some (a : LuaCrtAllocator T) (block : Ptr)
    (osize nsize : Nat) (f : HostFn) (h : a.l_alloc = some f) :
    a.realloc block osize nsize =
      ⟨Except.ok (f a.l_ud block osize nsize),
        [⟨a.l_ud, block, osize, nsize⟩], a⟩ := by
  simp only [LuaCrtAllocator.realloc, h]

theorem crtAllocate_guardFail (sizeMax : Nat) (a : LuaCrtAllocator T)
    (n : Nat) (hg : ¬ n ≤ sizeMax / T.size) :
    a.allocate sizeMax n = ⟨Except.error CppExc.bad_alloc, [], a⟩ := by
  simp only [LuaCrtAllocator.allocate, if_neg hg]

theorem crtAllocate_none (sizeMax : Nat) (a : LuaCrtAllocator T) (n : Nat)
    (h : a.l_alloc = none) :
    a.allocate sizeMax n = ⟨Except.error CppExc.bad_alloc, [], a⟩ := by
  by_cases hg : n ≤ sizeMax / T.size
  · simp only [LuaCrtAllocator.allocate, if_pos hg, crtRealloc_none a none 0 (n * T.size) h]
  · exact crtAllocate_guardFail sizeMax a n hg

theorem crtAllocate_some (sizeMax : Nat) (a : LuaCrtAllocator T) (n : Nat)
    (f : HostFn) (hf : a.l_alloc = some f) (hg : n ≤ sizeMax / T.size) :
    a.allocate sizeMax n =
      ⟨match f a.l_ud none 0 (n * T.size) with
        | some p => Except.ok p
        | none => Except.error CppExc.bad_alloc,
       [⟨a.l_ud, none, 0, n * T.size⟩], a⟩ := by
  simp only [LuaCrtAllocator.allocate, if_pos hg,
    crtRealloc_some a none 0 (n * T.size) f hf]
  cases f a.l_ud none 0 (n * T.size) <;> rfl

theorem crtDealloc_none (a : LuaCrtAllocator T) (p : Ptr) (n : Nat)
    (h : a.l_alloc = none) :
    a.deallocate p n = ⟨Except.error CppExc.bad_alloc, [], a⟩ := by
  simp only [LuaCrtAllocator.deallocate, crtRealloc_none a p n 0 h]

theorem crtDealloc_some (a : LuaCrtAllocator T) (p : Ptr) (n : Nat)
    (f : HostFn) (h : a.l_alloc = some f) :
    a.deallocate p n = ⟨Except.ok (), [⟨a.l_ud, p, n, 0⟩], a⟩ := by
  simp only [LuaCrtAllocator.deallocate, crtRealloc_some a p n 0 f h]

theorem intRealloc_none (σ : GStore) (a : InternalLuaCrtAllocator T)
    (block : Ptr) (osize nsize : Nat) (h : a._G = none) :
    a.realloc σ block osize nsize = ⟨Except.error CppExc.bad_alloc, [], a⟩ := by
  simp only [InternalLuaCrtAllocator.realloc, h]

theorem intRealloc_some (σ : GStore) (a : InternalLuaCrtAllocator T)
    (block : Ptr) (osize nsize : Nat) (g : GAddr) (h : a._G = some g) :
    a.realloc σ block osize nsize =
      ⟨Except.ok ((σ g).frealloc (σ g).ud block osize nsize),
        [⟨(σ g).ud, block, osize, nsize⟩], a⟩ := by
  simp only [InternalLuaCrtAllocator.realloc, h]

theorem intAllocate_guardFail (σ : GStore) (sizeMax : Nat)
    (a : InternalLuaCrtAllocator T) (n : Nat) (hg : ¬ n ≤ sizeMax / T.size) :
    a.allocate σ sizeMax n = ⟨Except.error CppExc.bad_alloc, [], a⟩ := by
  simp only [InternalLuaCrtAllocator.allocate, if_neg hg]

theorem intAllocate_none (σ : GStore) (sizeMax : Nat)
    (a : InternalLuaCrtAllocator T) (n : Nat) (h : a._G = none) :
    a.allocate σ sizeMax n = ⟨Except.error CppExc.bad_alloc, [], a⟩ := by
  by_cases hg : n ≤ sizeMax / T.size
  · simp only [InternalLuaCrtAllocator.allocate, if_pos hg,
      intRealloc_none σ a none 0 (n * T.size) h]
  · exact intAllocate_guardFail σ sizeMax a n hg

theorem intAllocate_some (σ : GStore) (sizeMax : Nat)
    (a : InternalLuaCrtAllocator T) (n : Nat) (g : GAddr)
    (h : a._G = some g) (hg : n ≤ sizeMax / T.size) :
    a.allocate σ sizeMax n =
      ⟨match (σ g).frealloc (σ g).ud none 0 (n * T.size) with
        | some p => Except.ok p
        | none => Except.error CppExc.bad_alloc,
       [⟨(σ g).ud, none, 0, n * T.size⟩], a⟩ := by
  simp only [InternalLuaCrtAllocator.allocate, if_pos hg,
    intRealloc_some σ a none 0 (n * T.size) g h]
  cases (σ g).frealloc (σ g).ud none 0 (n * T.size) <;> rfl

theorem intDealloc_none (σ : GStore) (a : InternalLuaCrtAllocator T)
    (p : Ptr) (n : Nat) (h : a._G = none) :
    a.deallocate σ p n = ⟨Except.error CppExc.bad_alloc, [], a⟩ := by
  simp only [InternalLuaCrtAllocator.deallocate, intRealloc_none σ a p n 0 h]

theorem intDealloc_some (σ : GStore) (a : InternalLuaCrtAllocator T)
    (p : Ptr) (n : Nat) (g : GAddr) (h : a._G = some g) :
    a.deallocate σ p n = ⟨Except.ok (), [⟨(σ g).ud, p, n, 0⟩], a⟩ := by
  simp only [InternalLuaCrtAllocator.deallocate, intRealloc_some σ a p n 0 g h]

/-! Claim theorems. -/

/-- C1 (evaluation at the failing input): over 4-byte elements with a
resolved callback, deallocate(p, 10) makes exactly one callback invocation
ignoring its return value, but passes the element count 10 as the old-size
argument — not 10 * sizeof(T) = 40 as the claim states — in both the caching
and the direct adapter. -/
theorem C1_deallocate_osize_eval :
    (aRes.deallocate (some 100) 10).trace = [⟨some 7, some 100, 10, 0⟩] ∧
    (aRes.deallocate (some 100) 10).trace ≠ [⟨some 7, some 100, 10 * T4.size, 0⟩] ∧
    (aRes.deallocate (some 100) 10).result = Except.ok () ∧
    (bRes.deallocate gsA (some 100) 10).trace = [⟨some 1, some 100, 10, 0⟩] ∧
    (bRes.deallocate gsA (some 100) 10).trace ≠ [⟨some 1, some 100, 10 * T4.size, 0⟩] ∧
    (bRes.deallocate gsA (some 100) 10).result = Except.ok () := by
  refine ⟨rfl, by decide, rfl, rfl, by decide, rfl⟩

/-- C2 counterexample: for the caching adapter in the unresolved state,
deallocate does not invoke the cached null callback at all — its trace is
empty — and the internal realloc throws bad_alloc, refuting the claimed
behavior of one invocation of the null callback with no error raised
anywhere. -/
theorem C2_counterexample :
    ¬ ((aNone.deallocate (some 5) 3).trace.length = 1 ∧
       (aNone.deallocate (some 5) 3).raised = false) := by
  decide

/-- C2 (amended): deallocate with a resolved callback raises nothing and
makes exactly one invocation; with an unresolved (null) cached callback it
makes zero callback invocations, because the internal realloc throws
bad_alloc before any invocation — an exception that escapes the noexcept
deallocate and terminates the program rather than invoking a null function. -/
theorem C2_deallocate_unresolved (T : CppType) (a : LuaCrtAllocator T)
    (p : Ptr) (n : Nat) :
    (a.l_alloc = none →
      (a.deallocate p n).trace = [] ∧
      (a.deallocate p n).result = Except.error CppExc.bad_alloc) ∧
    (∀ f, a.l_alloc = some f →
      (a.deallocate p n).trace = [⟨a.l_ud, p, n, 0⟩] ∧
      (a.deallocate p n).result = Except.ok ()) := by
  constructor
  · intro h
    rw [crtDealloc_none a p n h]
    exact ⟨rfl, rfl⟩
  · intro f h
    rw [crtDealloc_some a p n f h]
    exact ⟨rfl, rfl⟩

/-- C2 witness: the amended theorem applied to the unresolved adapter. -/
theorem C2_witness :
    (aNone.deallocate (some 5) 3).trace = [] ∧
    (aNone.deallocate (some 5) 3).result = Except.error CppExc.bad_alloc :=
  (C2_deallocate_unresolved T4 aNone (some 5) 3).1 rfl

/-- C3: when n * sizeof(T) exceeds SIZE_MAX, allocate of either adapter
raises bad_alloc with zero callback invocations; the guard the code
evaluates, n <= SIZE_MAX / sizeof(T), is computed by division before any
multiplication and is equivalent to the product being representable. -/
theorem C3_allocate_overflow (sizeMax : Nat) (T : CppType)
    (a : LuaCrtAllocator T) (σ : GStore) (b : InternalLuaCrtAllocator T)
    (n : Nat) (hT : 0 < T.size) (hovf : sizeMax < n * T.size) :
    (a.allocate sizeMax n).result = Except.error CppExc.bad_alloc ∧
    (a.allocate sizeMax n).trace = [] ∧
    (b.allocate σ sizeMax n).result = Except.error CppExc.bad_alloc ∧
    (b.allocate σ sizeMax n).trace = [] ∧
    ((n ≤ sizeMax / T.size) ↔ n * T.size ≤ sizeMax) := by
  have hiff : (n ≤ sizeMax / T.size) ↔ n * T.size ≤ sizeMax :=
    Nat.le_div_iff_mul_le hT
  have hg : ¬ n ≤ sizeMax / T.size := by
    rw [hiff]
    omega
  rw [crtAllocate_guardFail sizeMax a n hg, intAllocate_guardFail σ sizeMax b n hg]
  exact ⟨rfl, rfl, rfl, rfl, hiff⟩

/-- C3 witness: SIZE_MAX 255, 4-byte elements, n = 64 (byte size 256). -/
theorem C3_witness :
    (aRes.allocate 255 64).result = Except.error CppExc.bad_alloc ∧
    (aRes.allocate 255 64).trace = [] ∧
    (bRes.allocate gsA 255 64).result = Except.error CppExc.bad_alloc ∧
    (bRes.allocate gsA 255 64).trace = [] ∧
    ((64 ≤ 255 / T4.size) ↔ 64 * T4.size ≤ 255) :=
  C3_allocate_overflow 255 T4 aRes gsA bRes 64 (by decide) (by decide)

/-- C4 counterexample: at n = 0 over 4-byte elements, with a resolved
callback that returns null, allocate raises bad_alloc although none of the
claim's three conditions holds — the byte size 0 does not overflow, the
callback is present, and the null return was for a zero-size request, not a
nonzero-size one. -/
theorem C4_counterexample :
    ¬ (((aNull.allocate 255 0).raised = true) ↔
        (255 < 0 * T4.size ∨ aNull.l_alloc.isNone = true ∨
          (0 * T4.size ≠ 0 ∧ hostNull aNull.l_ud none 0 (0 * T4.size) = none))) := by
  decide

/-- C4 (amended): allocate raises bad_alloc exactly when the byte-size
product overflows SIZE_MAX, or the resolved callback is absent, or the host
callback returns null for the request — of any size, including the zero-size
request issued by allocate(0); at most one invocation is made (no retry). -/
theorem C4_allocate_error_iff (sizeMax : Nat) (T : CppType)
    (a : LuaCrtAllocator T) (σ : GStore) (b : InternalLuaCrtAllocator T)
    (n : Nat) (hT : 0 < T.size) :
    ((a.allocate sizeMax n).result = Except.error CppExc.bad_alloc ↔
      sizeMax < n * T.size ∨ a.l_alloc = none ∨
        ∃ f, a.l_alloc = some f ∧ f a.l_ud none 0 (n * T.size) = none) ∧
    (a.allocate sizeMax n).trace.length ≤ 1 ∧
    ((b.allocate σ sizeMax n).result = Except.error CppExc.bad_alloc ↔
      sizeMax < n * T.size ∨ b._G = none ∨
        ∃ g, b._G = some g ∧ (σ g).frealloc (σ g).ud none 0 (n * T.size) = none) ∧
    (b.allocate σ sizeMax n).trace.length ≤ 1 := by
  have hgu : (n ≤ sizeMax / T.size) ↔ n * T.size ≤ sizeMax :=
    Nat.le_div_iff_mul_le hT
  by_cases hg : n ≤ sizeMax / T.size
  · have hno : ¬ sizeMax < n * T.size := by
      rw [hgu] at hg
      omega
    constructor
    · cases hfa : a.l_alloc with
      | none =>
          rw [crtAllocate_none sizeMax a n hfa]
          simp [hno, hfa]
      | some f =>
          rw [crtAllocate_some sizeMax a n f hfa hg]
          cases hres : f a.l_ud none 0 (n * T.size) <;> simp [hno, hfa, hres]
    refine ⟨?_, ?_, ?_⟩
    · cases hfa : a.l_alloc with
      | none =>
          rw [crtAllocate_none sizeMax a n hfa]
          simp
      | some f =>
          rw [crtAllocate_some sizeMax a n f hfa hg]
          simp
    · cases hb : b._G with
      | none =>
          rw [intAllocate_none σ sizeMax b n hb]
          simp [hno, hb]
      | some g =>
          rw [intAllocate_some σ sizeMax b n g hb hg]
          cases hres : (σ g).frealloc (σ g).ud none 0 (n * T.size) <;>
            simp [hno, hb, hres]
    · cases hb : b._G with
      | none =>
          rw [intAllocate_none σ sizeMax b n hb]
          simp
      | some g =>
          rw [intAllocate_some σ sizeMax b n g hb hg]
          simp
  · have hyes : sizeMax < n * T.size := by
      rw [hgu] at hg
      omega
    rw [crtAllocate_guardFail sizeMax a n hg, intAllocate_guardFail σ sizeMax b n hg]
    simp [hyes]

/-- C4 witness: the amended theorem applied at SIZE_MAX 255, 4-byte
elements, n = 0, a null-returning resolved callback. -/
theorem C4_witness :
    (aNull.allocate 255 0).result = Except.error CppExc.bad_alloc :=
  (C4_allocate_error_iff 255 T4 aNull gsA bRes 0 (by decide)).1.mpr
    (Or.inr (Or.inr ⟨hostNull, rfl, rfl⟩))

/-- C5: with a representable byte size and a resolved callback that answers
the request (ud, null, 0, n * sizeof(T)) with a non-null block, allocate of
either adapter performs exactly that one invocation and returns that block. -/
theorem C5_allocate_success (sizeMax : Nat) (T : CppType)
    (a : LuaCrtAllocator T) (σ : GStore) (b : InternalLuaCrtAllocator T)
    (n : Nat) (f : HostFn) (g : GAddr) (p q : Nat)
    (hT : 0 < T.size) (hrep : n * T.size ≤ sizeMax)
    (hf : a.l_alloc = some f) (hp : f a.l_ud none 0 (n * T.size) = some p)
    (hb : b._G = some g)
    (hq : (σ g).frealloc (σ g).ud none 0 (n * T.size) = some q) :
    a.allocate sizeMax n = ⟨Except.ok p, [⟨a.l_ud, none, 0, n * T.size⟩], a⟩ ∧
    b.allocate σ sizeMax n =
      ⟨Except.ok q, [⟨(σ g).ud, none, 0, n * T.size⟩], b⟩ := by
  have hg : n ≤ sizeMax / T.size := (Nat.le_div_iff_mul_le hT).mpr hrep
  rw [crtAllocate_some sizeMax a n f hf hg, intAllocate_some σ sizeMax b n g hb hg,
    hp, hq]
  exact ⟨rfl, rfl⟩

/-- C5 witness: 4-byte elements, n = 10, SIZE_MAX 255; the caching adapter
holds hostA (ud 3), the direct adapter reads record 0 of gsA (hostA, ud 1). -/
theorem C5_witness :
    aA.allocate 255 10 = ⟨Except.ok 11, [⟨some 3, none, 0, 40⟩], aA⟩ ∧
    bRes.allocate gsA 255 10 = ⟨Except.ok 11, [⟨some 1, none, 0, 40⟩], bRes⟩ :=
  C5_allocate_success 255 T4 aA gsA bRes 10 hostA 0 11 11
    (by decide) (by decide) rfl rfl rfl rfl

/-- C6: after constructing the caching adapter from host L1, Validate(L2)
overwrites both cached fields with the pair L2 resolves to — the returned
adapter equals one constructed from L2 — and every subsequent allocate whose
guard passes invokes L2's callback with L2's user data, not L1's. -/
theorem C6_validate_uses_new_host (T : CppType) (σ : GStore)
    (L1 L2 : lua_State) :
    ((LuaCrtAllocator.ofState T σ L1).Validate σ L2).l_alloc =
      some (σ L2.l_G).frealloc ∧
    ((LuaCrtAllocator.ofState T σ L1).Validate σ L2).l_ud = (σ L2.l_G).ud ∧
    ((LuaCrtAllocator.ofState T σ L1).Validate σ L2) =
      LuaCrtAllocator.ofState T σ L2 ∧
    (∀ sizeMax n, n ≤ sizeMax / T.size →
      (((LuaCrtAllocator.ofState T σ L1).Validate σ L2).allocate sizeMax n).trace =
        [⟨(σ L2.l_G).ud, none, 0, n * T.size⟩] ∧
      (((LuaCrtAllocator.ofState T σ L1).Validate σ L2).allocate sizeMax n).result =
        (match (σ L2.l_G).frealloc (σ L2.l_G).ud none 0 (n * T.size) with
          | some p => Except.ok p
          | none => Except.error CppExc.bad_alloc)) := by
  refine ⟨rfl, rfl, rfl, ?_⟩
  intro sizeMax n hg
  rw [crtAllocate_some sizeMax ((LuaCrtAllocator.ofState T σ L1).Validate σ L2)
    n (σ L2.l_G).frealloc rfl hg]
  exact ⟨rfl, rfl⟩

/-- C6 witness: under the store gsAB, host L1 at address 0 resolves to
(hostA, ud 1) and host L2 at address 1 to (hostB, ud 2); after Validate(L2)
an allocate of 3 elements of 4 bytes invokes hostB with ud 2. -/
theorem C6_witness :
    ((LuaCrtAllocator.ofState T4 gsAB ⟨0⟩).Validate gsAB ⟨1⟩).l_ud = some 2 ∧
    (((LuaCrtAllocator.ofState T4 gsAB ⟨0⟩).Validate gsAB ⟨1⟩).allocate 255 3).trace =
      [⟨some 2, none, 0, 12⟩] ∧
    (((LuaCrtAllocator.ofState T4 gsAB ⟨0⟩).Validate gsAB ⟨1⟩).allocate 255 3).result =
      Except.ok 22 :=
  ⟨(C6_validate_uses_new_host T4 gsAB ⟨0⟩ ⟨1⟩).2.1,
    ((C6_validate_uses_new_host T4 gsAB ⟨0⟩ ⟨1⟩).2.2.2 255 3 (by decide)).1,
    ((C6_validate_uses_new_host T4 gsAB ⟨0⟩ ⟨1⟩).2.2.2 255 3 (by decide)).2⟩

/-- C7: the direct adapter reads callback and user data from the referenced
live global_State record at call time: allocate and deallocate are
characterized entirely by the record the store holds at the adapter's stored
address when the call is made, and two stores agreeing at that address give
identical outcomes — so mutating the record between two calls changes which
callback the second call uses, with no refresh step. -/
theorem C7_direct_live_read (sizeMax : Nat) (T : CppType)
    (b : InternalLuaCrtAllocator T) (g : GAddr) (hb : b._G = some g) :
    (∀ σ n, n ≤ sizeMax / T.size →
      (b.allocate σ sizeMax n).trace = [⟨(σ g).ud, none, 0, n * T.size⟩] ∧
      (b.allocate σ sizeMax n).result =
        (match (σ g).frealloc (σ g).ud none 0 (n * T.size) with
          | some p => Except.ok p
          | none => Except.error CppExc.bad_alloc)) ∧
    (∀ σ p n, (b.deallocate σ p n).trace = [⟨(σ g).ud, p, n, 0⟩] ∧
      (b.deallocate σ p n).result = Except.ok ()) ∧
    (∀ σ σ' n, σ g = σ' g →
      b.allocate σ sizeMax n = b.allocate σ' sizeMax n) ∧
    (∀ σ σ' p n, σ g = σ' g →
      b.deallocate σ p n = b.deallocate σ' p n) := by
  refine ⟨?_, ?_, ?_, ?_⟩
  · intro σ n hg
    rw [intAllocate_some σ sizeMax b n g hb hg]
    exact ⟨rfl, rfl⟩
  · intro σ p n
    rw [intDealloc_some σ b p n g hb]
    exact ⟨rfl, rfl⟩
  · intro σ σ' n h
    by_cases hg : n ≤ sizeMax / T.size
    · rw [intAllocate_some σ sizeMax b n g hb hg,
        intAllocate_some σ' sizeMax b n g hb hg, h]
    · rw [intAllocate_guardFail σ sizeMax b n hg,
        intAllocate_guardFail σ' sizeMax b n hg]
  · intro σ σ' p n h
    rw [intDealloc_some σ b p n g hb, intDealloc_some σ' b p n g hb, h]

/-- C7 witness: the same direct adapter, with the record at its stored
address mutated between the two calls (store gsA, then store gsB), invokes
hostA with ud 1 on the first allocate and hostB with ud 2 on the second. -/
theorem C7_witness :
    (bRes.allocate gsA 255 3).trace = [⟨some 1, none, 0, 12⟩] ∧
    (bRes.allocate gsA 255 3).result = Except.ok 11 ∧
    (bRes.allocate gsB 255 3).trace = [⟨some 2, none, 0, 12⟩] ∧
    (bRes.allocate gsB 255 3).result = Except.ok 22 :=
  ⟨((C7_direct_live_read 255 T4 bRes 0 rfl).1 gsA 3 (by decide)).1,
    ((C7_direct_live_read 255 T4 bRes 0 rfl).1 gsA 3 (by decide)).2,
    ((C7_direct_live_read 255 T4 bRes 0 rfl).1 gsB 3 (by decide)).1,
    ((C7_direct_live_read 255 T4 bRes 0 rfl).1 gsB 3 (by decide)).2⟩

/-- C8: for any two instances of the same adapter kind, over any element
types, constructed and resolved in any way, operator== returns true and
operator!= returns false. -/
theorem C8_always_equal :
    (∀ (T U : CppType) (a : LuaCrtAllocator T) (b : LuaCrtAllocator U),
      a.opEq b = true ∧ a.opNe b = false) ∧
    (∀ (T U : CppType) (a : InternalLuaCrtAllocator T)
      (b : InternalLuaCrtAllocator U), a.opEq b = true ∧ a.opNe b = false) :=
  ⟨fun _ _ _ _ => ⟨rfl, rfl⟩, fun _ _ _ _ => ⟨rfl, rfl⟩⟩

/-- C9: realloc, allocate and deallocate leave the adapter state unchanged
in every case, success or failure: the caching adapter's cached pair and the
direct adapter's stored record address are never written by them (so in the
caching variant only construction and Validate write the cached fields). -/
theorem C9_ops_preserve_state (sizeMax : Nat) (T : CppType)
    (a : LuaCrtAllocator T) (σ : GStore) (b : InternalLuaCrtAllocator T)
    (blk p : Ptr) (n osize nsize : Nat) :
    (a.realloc blk osize nsize).post = a ∧
    (a.allocate sizeMax n).post = a ∧
    (a.deallocate p n).post = a ∧
    (b.realloc σ blk osize nsize).post = b ∧
    (b.allocate σ sizeMax n).post = b ∧
    (b.deallocate σ p n).post = b := by
  refine ⟨?_, ?_, ?_, ?_, ?_, ?_⟩
  · cases h : a.l_alloc with
    | none => rw [crtRealloc_none a blk osize nsize h]
    | some f => rw [crtRealloc_some a blk osize nsize f h]
  · by_cases hg : n ≤ sizeMax / T.size
    · cases h : a.l_alloc with
      | none => rw [crtAllocate_none sizeMax a n h]
      | some f => rw [crtAllocate_some sizeMax a n f h hg]
    · rw [crtAllocate_guardFail sizeMax a n hg]
  · cases h : a.l_alloc with
    | none => rw [crtDealloc_none a p n h]
    | some f => rw [crtDealloc_some a p n f h]
  · cases h : b._G with
    | none => rw [intRealloc_none σ b blk osize nsize h]
    | some g => rw [intRealloc_some σ b blk osize nsize g h]
  · by_cases hg : n ≤ sizeMax / T.size
    · cases h : b._G with
      | none => rw [intAllocate_none σ sizeMax b n h]
      | some g => rw [intAllocate_some σ sizeMax b n g h hg]
    · rw [intAllocate_guardFail σ sizeMax b n hg]
  · cases h : b._G with
    | none => rw [intDealloc_none σ b p n h]
    | some g => rw [intDealloc_some σ b p n g h]

/-- C10: allocate(0) passes the overflow guard (0 is at most any quotient)
and, with a resolved callback, makes exactly one invocation with arguments
(ud, null, 0, 0) — by the host protocol a free request — so whenever the
callback answers a zero-size request with null, allocate(0) raises
bad_alloc; both adapters. -/
theorem C10_allocate_zero (sizeMax : Nat) (T : CppType)
    (a : LuaCrtAllocator T) (σ : GStore) (b : InternalLuaCrtAllocator T)
    (f : HostFn) (g : GAddr) (hf : a.l_alloc = some f) (hb : b._G = some g) :
    (0 ≤ sizeMax / T.size) ∧
    (a.allocate sizeMax 0).trace = [⟨a.l_ud, none, 0, 0⟩] ∧
    (f a.l_ud none 0 0 = none →
      (a.allocate sizeMax 0).result = Except.error CppExc.bad_alloc) ∧
    (b.allocate σ sizeMax 0).trace = [⟨(σ g).ud, none, 0, 0⟩] ∧
    ((σ g).frealloc (σ g).ud none 0 0 = none →
      (b.allocate σ sizeMax 0).result = Except.error CppExc.bad_alloc) := by
  have hg : 0 ≤ sizeMax / T.size := Nat.zero_le _
  have hz : 0 * T.size = 0 := Nat.zero_mul _
  rw [crtAllocate_some sizeMax a 0 f hf hg, intAllocate_some σ sizeMax b 0 g hb hg, hz]
  refine ⟨hg, rfl, ?_, rfl, ?_⟩
  · intro h
    rw [h]
  · intro h
    rw [h]

/-- C10 witness: allocate(0) on the caching adapter whose callback always
returns null, and on the direct adapter under a store whose callback returns
null exactly on zero-size requests. -/
theorem C10_witness :
    (aNull.allocate 255 0).trace = [⟨some 7, none, 0, 0⟩] ∧
    (aNull.allocate 255 0).result = Except.error CppExc.bad_alloc ∧
    (bConst.allocate gsConst 255 0).trace = [⟨some 5, none, 0, 0⟩] ∧
    (bConst.allocate gsConst 255 0).result = Except.error CppExc.bad_alloc :=
  ⟨(C10_allocate_zero 255 T4 aNull gsConst bConst hostNull 0 rfl rfl).2.1,
    (C10_allocate_zero 255 T4 aNull gsConst bConst hostNull 0 rfl rfl).2.2.1 rfl,
    (C10_allocate_zero 255 T4 aNull gsConst bConst hostNull 0 rfl rfl).2.2.2.1,
    (C10_allocate_zero 255 T4 aNull gsConst bConst hostNull 0 rfl rfl).2.2.2.2 rfl⟩
